import Mathlib

/-!
Verification of the wtc3_logger core against its natural-language
specification.

The definitions below are a shallow embedding of the Python sources in
src/wtc3_logger/ (parser.py, databus.py, status.py, export_utils.py,
acquisition.py).  Python machine-level details are idealised in the usual
way: Python ints are Int / Nat, Python floats are Rat (exact rational
values; no claim proved here depends on binary rounding), Python dicts
are insertion-ordered association lists with overwrite-on-duplicate-key,
and filesystem / serial effects are oracles passed in explicitly.
String handling covers the ASCII range (the protocol is ASCII).
-/

namespace WTC3

/-! ## Python string primitives -/

/-- Whitespace characters recognised by Python str.strip and str.split
(ASCII range). -/
def isWs (c : Char) : Bool :=
  c = ' ' || c = '\t' || c = '\n' || c = '\x0d' || c = '\x0b' || c = '\x0c'

/-- Python str.strip on a character list: drop leading and trailing
whitespace. -/
def pyStripChars (l : List Char) : List Char :=
  ((l.dropWhile isWs).reverse.dropWhile isWs).reverse

/-- A line is blank when line.strip() is empty, i.e. every character is
whitespace. -/
def isBlank (line : String) : Bool :=
  line.data.all isWs

/-- Helper for splitting on whitespace runs: accumulates the current token
(in reverse) and emits it at each whitespace boundary. -/
def splitWsAux : List Char → List Char → List (List Char)
  | [], acc => if acc.isEmpty then [] else [acc.reverse]
  | c :: cs, acc =>
    if isWs c then
      if acc.isEmpty then splitWsAux cs [] else acc.reverse :: splitWsAux cs []
    else
      splitWsAux cs (c :: acc)

/-- Embedding of split_ws (src/wtc3_logger/parser.py lines 10-11):
line.strip().split() — tokens are the maximal whitespace-free runs, and
empty tokens cannot occur. -/
def split_ws (line : String) : List String :=
  (splitWsAux line.data []).map String.mk

/-- Digit run with PEP-515 underscores, as accepted inside Python int()
and float() conversions: digit (underscore? digit)*.  Returns the digits
collected and the unconsumed rest; call sites require the first character
to be a digit. -/
def digRun : List Char → List Char × List Char
  | [] => ([], [])
  | c :: cs =>
    if c.isDigit then
      let (d, r) := digRun cs
      (c :: d, r)
    else if c = '_' then
      match cs with
      | [] => ([], [c])
      | d :: cs2 =>
        if d.isDigit then
          let (ds, r) := digRun cs2
          (d :: ds, r)
        else ([], c :: cs)
    else ([], c :: cs)

/-- Numeric value of a list of decimal digits. -/
def natOfDigits (l : List Char) : ℕ :=
  l.foldl (fun n c => 10 * n + (c.toNat - '0'.toNat)) 0

/-- Consume an optional sign; returns whether the value is negated and the
rest. -/
def parseSign : List Char → Bool × List Char
  | '+' :: cs => (false, cs)
  | '-' :: cs => (true, cs)
  | cs => (false, cs)

/-- Embedding of Python int(string): strip whitespace, optional sign, then
a digit run (underscores allowed between digits) that must consume the
whole rest. -/
def pyInt? (s : String) : Option ℤ :=
  let l := pyStripChars s.data
  let (neg, l1) := parseSign l
  match l1 with
  | [] => none
  | c :: _ =>
    if c.isDigit then
      let (ds, rest) := digRun l1
      if rest.isEmpty then
        some (if neg then -(natOfDigits ds : ℤ) else (natOfDigits ds : ℤ))
      else none
    else none

/-- Exponent part of a Python float literal: (e|E) sign? digits.  Returns
the exponent and the rest, or leaves the input untouched when no exponent
is present (an ill-formed exponent makes the whole literal fail, which is
signalled by the leftover rest). -/
def parseExp (l : List Char) : Option ℤ × List Char :=
  match l with
  | c :: cs =>
    if c = 'e' || c = 'E' then
      let (neg, l1) := parseSign cs
      match l1 with
      | d :: _ =>
        if d.isDigit then
          let (ds, rest) := digRun l1
          (some (if neg then -(natOfDigits ds : ℤ) else (natOfDigits ds : ℤ)), rest)
        else (none, l)
      | [] => (none, l)
    else (none, l)
  | [] => (none, [])

/-- Mantissa of a Python float literal: digits [. digits?] | . digits.
Returns the value and the rest, or none when no mantissa is present. -/
def parseMantissa (l : List Char) : Option (ℚ × List Char) :=
  match l with
  | c :: _ =>
    if c.isDigit then
      let (ds, r1) := digRun l
      match r1 with
      | '.' :: r2 =>
        match r2 with
        | d :: _ =>
          if d.isDigit then
            let (fs, r3) := digRun r2
            some ((natOfDigits ds : ℚ) + (natOfDigits fs : ℚ) / (10 : ℚ) ^ fs.length, r3)
          else some ((natOfDigits ds : ℚ), r2)
        | [] => some ((natOfDigits ds : ℚ), [])
      | _ => some ((natOfDigits ds : ℚ), r1)
    else if c = '.' then
      match l.tail with
      | d :: _ =>
        if d.isDigit then
          let (fs, r3) := digRun l.tail
          some ((natOfDigits fs : ℚ) / (10 : ℚ) ^ fs.length, r3)
        else none
      | [] => none
    else none
  | [] => none

/-- Embedding of Python float(string) restricted to finite literals:
strip whitespace, optional sign, mantissa, optional exponent; the whole
string must be consumed.  The value is the exact rational the literal
denotes (binary rounding is idealised away). -/
def pyFloatVal? (s : String) : Option ℚ :=
  let l := pyStripChars s.data
  let (neg, l1) := parseSign l
  match parseMantissa l1 with
  | none => none
  | some (m, r1) =>
    let (e, r2) := parseExp r1
    if r2.isEmpty then
      let v := match e with
        | some ex => m * (10 : ℚ) ^ ex
        | none => m
      some (if neg then -v else v)
    else none

/-- Lower-case an ASCII letter. -/
def asciiLower (c : Char) : Char :=
  if 'A' ≤ c ∧ c ≤ 'Z' then Char.ofNat (c.toNat + 32) else c

/-- Python float(string) also accepts inf, infinity and nan spellings
(case-insensitive, optional sign). -/
def pyIsInfNan (s : String) : Bool :=
  let l := pyStripChars s.data
  let (_, l1) := parseSign l
  let w := String.mk (l1.map asciiLower)
  w = "inf" || w = "infinity" || w = "nan"

/-- Embedding of Parser._is_number (src/wtc3_logger/parser.py lines
143-151): a token is numeric when float(token) succeeds. -/
def isNumber (token : String) : Bool :=
  if token.isEmpty then false
  else (pyFloatVal? token).isSome || pyIsInfNan token

/-! ## Values and parameter table (src/wtc3_logger/parser.py) -/

/-- A Python value of type Number | str, as produced by token casting.
Python floats are modelled as exact rationals. -/
inductive Value where
  | intV (z : ℤ)
  | floatV (q : ℚ)
  | strV (s : String)
  deriving DecidableEq, Repr

/-- The rational content of a numeric Value (used where Python multiplies
a parsed number by a float scale). -/
def Value.toQ : Value → ℚ
  | .intV z => (z : ℚ)
  | .floatV q => q
  | .strV _ => 0

/-- True when the raw token contains a dot or an e/E, the test
ParameterInfo.cast and Parser._cast_default use to choose float() over
int(). -/
def wantsFloat (raw : String) : Bool :=
  raw.data.any (fun c => c = '.' || c = 'e' || c = 'E')

/-- Embedding of ParameterInfo (src/wtc3_logger/parser.py lines 14-33). -/
structure ParameterInfo where
  key : String
  descr : String
  unit : Option String
  scale : Option ℚ := none
  deriving DecidableEq, Repr

/-- Embedding of ParameterInfo.cast: empty tokens pass through, a token
with a dot or exponent marker parses as float, otherwise as int; a parse
failure returns the raw string; a scale factor multiplies the parsed
number into a float. -/
def ParameterInfo.cast (info : ParameterInfo) (raw : String) : Value :=
  if raw = "" then .strV raw
  else
    let parsed : Option Value :=
      if wantsFloat raw then (pyFloatVal? raw).map .floatV
      else (pyInt? raw).map .intV
    match parsed with
    | none => .strV raw
    | some v =>
      match info.scale with
      | none => v
      | some k => .floatV (v.toQ * k)

/-- Embedding of the PARAMETERS table (src/wtc3_logger/parser.py lines
36-75), keyed in source order. -/
def PARAMETERS : List (String × ParameterInfo) := [
  ("P04", ⟨"P04", "Ladestrategie", none, none⟩),
  ("P05", ⟨"P05", "Status", none, none⟩),
  ("P06", ⟨"P06", "Laufzeit", some "s", none⟩),
  ("P07", ⟨"P07", "Halterung", none, none⟩),
  ("P08", ⟨"P08", "Lademodul", none, none⟩),
  ("P40", ⟨"P40", "Eingangsspannung", some "V", some (1/1000)⟩),
  ("P41", ⟨"P41", "Controllerspannung", some "V", some (1/1000)⟩),
  ("P42", ⟨"P42", "Ausgangsspannung", some "V", some (1/1000)⟩),
  ("P43", ⟨"P43", "Stellspannung", some "V", some (1/1000)⟩),
  ("P44", ⟨"P44", "Sollspannung", some "V", some (1/1000)⟩),
  ("P45", ⟨"P45", "Batteriespannung", some "V", some (1/1000)⟩),
  ("P46", ⟨"P46", "Fuelgauge Batteriespannung", some "V", some (1/1000)⟩),
  ("P50", ⟨"P50", "Eingangsstrom", some "A", some (1/1000)⟩),
  ("P51", ⟨"P51", "Controllerstrom", some "A", some (1/1000)⟩),
  ("P52", ⟨"P52", "Ausgangsstrom", some "A", some (1/1000)⟩),
  ("P53", ⟨"P53", "Stellstrom", some "A", some (1/1000)⟩),
  ("P54", ⟨"P54", "Sollstrom", some "A", some (1/1000)⟩),
  ("P55", ⟨"P55", "Batteriestrom", some "A", some (1/1000)⟩),
  ("P56", ⟨"P56", "Fuelgauge Ladestrom", some "A", some (1/1000)⟩),
  ("P57", ⟨"P57", "Stellstrom DAC", some "count", none⟩),
  ("P60", ⟨"P60", "Systemtemperatur", some "°C", some (1/10)⟩),
  ("P61", ⟨"P61", "Batterietemperatur", some "°C", some (1/10)⟩),
  ("P62", ⟨"P62", "Fuelgauge Temperatur", some "°C", some (1/10)⟩),
  ("P70", ⟨"P70", "Batteriename", none, none⟩),
  ("P71", ⟨"P71", "Chemie", none, none⟩),
  ("P72", ⟨"P72", "Schlussspannung", some "V", some (1/1000)⟩),
  ("P73", ⟨"P73", "Kalte Temperatur", some "°C", some (1/10)⟩),
  ("P74", ⟨"P74", "Kühle Temperatur", some "°C", some (1/10)⟩),
  ("P75", ⟨"P75", "Warme Temperatur", some "°C", some (1/10)⟩),
  ("P76", ⟨"P76", "Heiße Temperatur", some "°C", some (1/10)⟩),
  ("P77", ⟨"P77", "Typ. Kapazität", some "mAh", none⟩),
  ("P78", ⟨"P78", "Max. Ladestrom", some "A", some (1/1000)⟩),
  ("P79", ⟨"P79", "Thermistor Beta", none, none⟩),
  ("P80", ⟨"P80", "Thermistor Widerstand", some "Ω", none⟩),
  ("P81", ⟨"P81", "Batterie Spannungsfeedback", some "Ω", none⟩),
  ("P90", ⟨"P90", "Eingangsspannung Min", some "V", some (1/1000)⟩),
  ("P91", ⟨"P91", "Eingangsspannung Reduziert", some "V", some (1/1000)⟩),
  ("P92", ⟨"P92", "Eingangsspannung Max", some "V", some (1/1000)⟩)]

/-- PARAMETERS.get(key): first matching entry of the table. -/
def paramLookup (key : String) : Option ParameterInfo :=
  (PARAMETERS.find? (fun p => p.1 = key)).map Prod.snd

/-- Embedding of Parser._cast_default (src/wtc3_logger/parser.py lines
153-160): the int/float/string heuristic without scaling. -/
def castDefault (raw : String) : Value :=
  let parsed : Option Value :=
    if wantsFloat raw then (pyFloatVal? raw).map .floatV
    else (pyInt? raw).map .intV
  match parsed with
  | none => .strV raw
  | some v => v

/-! ## Python dict model: insertion-ordered association lists -/

/-- Insert a key/value pair as a Python dict assignment does: overwrite in
place when the key exists, append otherwise. -/
def dictInsert {α : Type} (d : List (String × α)) (k : String) (v : α) :
    List (String × α) :=
  if d.any (fun p => p.1 = k) then
    d.map (fun p => if p.1 = k then (k, v) else p)
  else d ++ [(k, v)]

/-- dict(zip(keys, vals)): fold the zipped pairs into an empty dict. -/
def dictOfZip {α : Type} (ks : List String) (vs : List α) :
    List (String × α) :=
  (List.zip ks vs).foldl (fun d kv => dictInsert d kv.1 kv.2) []

/-- dict.get(key): first value stored under the key. -/
def dictGet {α : Type} (d : List (String × α)) (k : String) : Option α :=
  (d.find? (fun p => p.1 = k)).map Prod.snd

/-! ## Parser state machine (src/wtc3_logger/parser.py lines 78-160) -/

/-- The parser phases, kept as the string field phase holds them in the
source. -/
inductive Phase where
  | find_header
  | expect_meta_values
  | expect_data_values
  | data
  deriving DecidableEq, Repr

/-- The mutable fields of Parser (src/wtc3_logger/parser.py lines 81-86);
registered callbacks are modelled by the event list feeding returns. -/
structure ParserState where
  meta_hdr : List String
  meta : List (String × String)
  data_hdr : List String
  phase : Phase
  deriving DecidableEq, Repr

/-- The freshly constructed Parser. -/
def ParserState.init : ParserState :=
  ⟨[], [], [], .find_header⟩

/-- Callback invocations a fed line produces: one record event per
on_record callback round, one dataHeader event per on_data_header round. -/
inductive ParserEvent where
  | record (meta : List (String × String)) (rec : List (String × Value))
  | dataHeader (hdr : List String)
  deriving DecidableEq, Repr

/-- True for record events. -/
def ParserEvent.isRec : ParserEvent → Bool
  | .record _ _ => true
  | .dataHeader _ => false

/-- Embedding of Parser._handle_header (src/wtc3_logger/parser.py lines
114-124): fill meta_hdr first, then data_hdr, then replace data_hdr. -/
def handleHeader (s : ParserState) (tokens : List String) : ParserState :=
  if s.meta_hdr.isEmpty then
    { s with meta_hdr := tokens, phase := .expect_meta_values }
  else if s.data_hdr.isEmpty then
    { s with data_hdr := tokens, phase := .expect_data_values }
  else
    { s with data_hdr := tokens, phase := .expect_data_values }

/-- Modelled from the spec: the on_data_header registration and its firing
are absent from src/wtc3_logger/parser.py although tests/test_parser.py
and src/wtc3_logger/acquisition.py line 35 use them.  Spec section 4.1
step 4: a header line that replaces an existing data_hdr (meta_hdr and
data_hdr both already non-empty) fires the data-header-changed callback;
the branches that first fill meta_hdr or data_hdr do not. -/
def handleHeaderEvents (s : ParserState) (tokens : List String) :
    List ParserEvent :=
  if s.meta_hdr.isEmpty then []
  else if s.data_hdr.isEmpty then []
  else [.dataHeader tokens]

/-- Record construction of Parser._handle_values (src/wtc3_logger/parser.py
lines 133-139): zip data_hdr with the tokens and cast each one. -/
def buildRecord (hdr : List String) (tokens : List String) :
    List (String × Value) :=
  (List.zip hdr tokens).foldl
    (fun d kv =>
      let v := match paramLookup kv.1 with
        | some info => info.cast kv.2
        | none => castDefault kv.2
      dictInsert d kv.1 v) []

/-- Embedding of Parser._handle_values (src/wtc3_logger/parser.py lines
126-141). -/
def handleValues (s : ParserState) (tokens : List String) :
    ParserState × List ParserEvent :=
  if s.phase = .expect_meta_values then
    ({ s with meta := dictOfZip s.meta_hdr tokens, phase := .find_header }, [])
  else if s.phase = .expect_data_values ∨ s.phase = .data then
    ({ s with phase := .data }, [.record s.meta (buildRecord s.data_hdr tokens)])
  else (s, [])

/-- Embedding of Parser.feed_line (src/wtc3_logger/parser.py lines
101-112): skip blank lines, bypass classification in expect_meta_values,
otherwise classify by the non-numeric token count against
max(1, token_count // 2). -/
def feedLine (s : ParserState) (line : String) :
    ParserState × List ParserEvent :=
  if isBlank line then (s, [])
  else
    let tokens := split_ws line
    if s.phase = .expect_meta_values then handleValues s tokens
    else
      let nonnum := (tokens.filter (fun t => !isNumber t)).length
      if max 1 (tokens.length / 2) ≤ nonnum then
        (handleHeader s tokens, handleHeaderEvents s tokens)
      else handleValues s tokens

/-- Embedding of Parser.feed (src/wtc3_logger/parser.py lines 97-99):
feed the lines in order, collecting every emitted event. -/
def feed (s : ParserState) (lines : List String) :
    ParserState × List ParserEvent :=
  lines.foldl (fun acc line =>
    let (s2, evs) := feedLine acc.1 line
    (s2, acc.2 ++ evs)) (s, [])

/-! ## DataBus (src/wtc3_logger/databus.py) -/

/-- One stored record. -/
abbrev Rec := List (String × Value)

/-- The lock-protected fields of DataBus: the bounded deque of records,
the current meta block, and the generation counter consumed by
tests/test_databus.py, src/wtc3_logger/acquisition.py and
src/wtc3_logger/ui/main_window.py. -/
structure BusState where
  records : List Rec
  meta : List (String × String)
  gen : ℕ
  deriving DecidableEq, Repr

namespace DataBus

/-- The freshly constructed DataBus. -/
def init : BusState := ⟨[], [], 0⟩

/-- deque(maxlen = N).append: keep the last N elements, evicting from the
left (oldest first). -/
def pushMax (N : ℕ) (l : List Rec) (r : Rec) : List Rec :=
  (l ++ [r]).drop (l.length + 1 - N)

/-- Embedding of DataBus.append (src/wtc3_logger/databus.py lines 34-41):
replace the stored meta with a copy and push the record into the bounded
deque.  Listener invocation and CSV persistence are outside the stored
state. -/
def append (N : ℕ) (s : BusState) (meta : List (String × String))
    (record : Rec) : BusState :=
  { records := pushMax N s.records record, meta := meta, gen := s.gen }

/-- Embedding of DataBus.snapshot (src/wtc3_logger/databus.py lines
52-54): a copy of the stored records in insertion order. -/
def snapshot (s : BusState) : List Rec := s.records

/-- Embedding of DataBus.meta (src/wtc3_logger/databus.py lines 56-58). -/
def metaOf (s : BusState) : List (String × String) := s.meta

/-- Modelled from the spec: DataBus.generation() is called by
tests/test_databus.py and src/wtc3_logger/ui/main_window.py but absent
from src/wtc3_logger/databus.py; spec section 4.2 makes it return the
current generation counter. -/
def generation (s : BusState) : ℕ := s.gen

/-- Modelled from the spec: DataBus.reset() is called by
tests/test_databus.py and src/wtc3_logger/acquisition.py but absent from
src/wtc3_logger/databus.py; spec section 4.2: reset clears all stored
records and increments generation, and does not clear meta. -/
def reset (s : BusState) : BusState :=
  { records := [], meta := s.meta, gen := s.gen + 1 }

end DataBus

/-! ## Status decoder (src/wtc3_logger/status.py) -/

/-- Embedding of StatusDetail (src/wtc3_logger/status.py lines 10-16). -/
structure StatusDetail where
  raw_value : Option ℤ
  badges : List String
  details : List String
  deriving DecidableEq, Repr

/-- A Python value of type Number | str | None as passed to
decode_status. -/
inductive PyVal where
  | intV (z : ℤ)
  | floatV (q : ℚ)
  | strV (s : String)
  | noneV
  deriving DecidableEq, Repr

/-- Python int(float) on a finite float: truncation toward zero. -/
def pyTruncQ (q : ℚ) : ℤ :=
  if 0 ≤ q then ⌊q⌋ else ⌈q⌉

/-- Python int(value) restricted to the inputs whose coercion either
succeeds or fails with one of the exception kinds the decoder catches
(TypeError, ValueError): ints, finite floats, strings and None.  This
restriction deliberately leaves out the infinite floats, whose int()
raises OverflowError instead; that uncaught path is kept by pyIntE and
decode_statusE below. -/
def pyIntCoerce : PyVal → Option ℤ
  | .intV z => some z
  | .floatV q => some (pyTruncQ q)
  | .strV s => pyInt? s
  | .noneV => none

/-- BATTERY_VOLTAGE table (src/wtc3_logger/status.py lines 19-26). -/
def BATTERY_VOLTAGE : List (ℤ × String) :=
  [(0, "Tiefentladen"), (1, "Niedrig"), (2, "Normal"), (3, "Voll"),
   (4, "Überspannung"), (5, "Ladeende")]

/-- BATTERY_TEMPERATURE table (src/wtc3_logger/status.py lines 27-33). -/
def BATTERY_TEMPERATURE : List (ℤ × String) :=
  [(0, "Kalt"), (1, "Kühl"), (2, "Normal"), (3, "Warm"), (4, "Heiß")]

/-- BATTERY_RESISTANCE table (src/wtc3_logger/status.py lines 34-39). -/
def BATTERY_RESISTANCE : List (ℤ × String) :=
  [(0, "Niedrig"), (1, "Normal"), (2, "Hoch"), (3, "Nicht verwendet")]

/-- CHARGER_SUPPLY table (src/wtc3_logger/status.py lines 40-45). -/
def CHARGER_SUPPLY : List (ℤ × String) :=
  [(0, "Tief"), (1, "Niedrig"), (2, "Normal"), (3, "Hoch")]

/-- CHARGER_CURRENT table (src/wtc3_logger/status.py lines 46-53). -/
def CHARGER_CURRENT : List (ℤ × String) :=
  [(0, "Aus"), (1, "10%"), (2, "20%"), (3, "50%"), (4, "100%"),
   (7, "Nicht verwendet")]

/-- FAULT_CODES table (src/wtc3_logger/status.py lines 54-60). -/
def FAULT_CODES : List (ℤ × String) :=
  [(0, "Keine Fehler"), (1, "Geringe Kapazität"), (2, "Hohe Kapazität"),
   (3, "Temperaturdurchgang"), (4, "Hoher Widerstand")]

/-- PERIPHERAL_BITS table (src/wtc3_logger/status.py lines 61-67). -/
def PERIPHERAL_BITS : List (ℕ × String) :=
  [(14, "Eingang aktiviert"), (15, "Ausgang aktiviert"),
   (16, "Regler aktiv"), (17, "Referenz aktiv"), (18, "Sleep aktiv")]

/-- NICKEL_EOC_BITS table (src/wtc3_logger/status.py lines 68-73). -/
def NICKEL_EOC_BITS : List (ℕ × String) :=
  [(22, "ΔV Drop erreicht"), (23, "ΔT Anstieg"),
   (24, "Max. Spannungsabfall"), (25, "Hohe Temperatur")]

/-- Integer-keyed table lookup (dict.get). -/
def tableGet (t : List (ℤ × String)) (code : ℤ) : Option String :=
  (t.find? (fun p => p.1 = code)).map Prod.snd

/-- The local helper field(offset, size) (src/wtc3_logger/status.py lines
90-92): raw_value >> offset masked to size bits.  Python right-shift on
ints floors, so it is Int.fdiv by a power of two, and the mask is emod. -/
def pyField (raw : ℤ) (offset size : ℕ) : ℤ :=
  (Int.fdiv raw (2 ^ offset)) % (2 ^ size)

/-- Python raw_value & (1 << bit) as a bit test. -/
def pyTestBit (raw : ℤ) (bit : ℕ) : Bool :=
  (Int.fdiv raw (2 ^ bit)) % 2 = 1

/-- The entry string add_enum builds: label plus the enum text or the
Unbekannt fallback (src/wtc3_logger/status.py lines 94-101). -/
def enumEntry (label : String) (t : List (ℤ × String)) (code : ℤ) :
    String :=
  match tableGet t code with
  | some text => label ++ ": " ++ text
  | none => label ++ ": Unbekannt (" ++ toString code ++ ")"

/-- handled_bits (src/wtc3_logger/status.py lines 115-116). -/
def handled_bits : List ℕ :=
  List.range' 0 3 ++ List.range' 3 3 ++ List.range' 6 2 ++
  List.range' 8 2 ++ List.range' 11 3 ++ List.range' 19 3 ++
  PERIPHERAL_BITS.map Prod.fst ++ NICKEL_EOC_BITS.map Prod.fst

/-- Insertion sort by bit index, modelling sorted(bit_labels.items())
(dict keys are unique, so ties do not occur). -/
def insertSorted (p : ℕ × String) : List (ℕ × String) → List (ℕ × String)
  | [] => [p]
  | q :: rest =>
    if p.1 ≤ q.1 then p :: q :: rest else q :: insertSorted p rest

/-- sorted(bit_labels.items()). -/
def sortBits (l : List (ℕ × String)) : List (ℕ × String) :=
  l.foldr insertSorted []

/-- The body of decode_status after a successful integer coercion
(src/wtc3_logger/status.py lines 87-133): fixed-width enum fields,
the fault code, peripheral and nickel end-of-charge flag bits, then the
caller-supplied extra bit labels for set bits not already handled. -/
def decodeWord (raw : ℤ) (bit_labels : Option (List (ℕ × String))) :
    StatusDetail :=
  let bv := enumEntry "Batteriespannung" BATTERY_VOLTAGE (pyField raw 0 3)
  let bt := enumEntry "Batterietemperatur" BATTERY_TEMPERATURE (pyField raw 3 3)
  let ir := enumEntry "Innenwiderstand" BATTERY_RESISTANCE (pyField raw 6 2)
  let vs := enumEntry "Versorgung" CHARGER_SUPPLY (pyField raw 8 2)
  let cc := enumEntry "Ladestrom" CHARGER_CURRENT (pyField raw 11 3)
  let fault := enumEntry "Fehler" FAULT_CODES (pyField raw 19 3)
  let badges := [bv, bt, vs, cc, fault]
  let periph := PERIPHERAL_BITS.foldl
    (fun acc p => if pyTestBit raw p.1 then acc ++ ["Peripherie: " ++ p.2] else acc) []
  let nickel := NICKEL_EOC_BITS.foldl
    (fun acc p => if pyTestBit raw p.1 then acc ++ ["NiCd EoC: " ++ p.2] else acc) []
  let extra := match bit_labels with
    | none => []
    | some bl => (sortBits bl).foldl
        (fun acc p =>
          if handled_bits.contains p.1 then acc
          else if pyTestBit raw p.1 then acc ++ [p.2] else acc) []
  { raw_value := some raw,
    badges := badges,
    details := [bv, bt, ir, vs, cc, fault] ++ periph ++ nickel ++ extra }

/-- Embedding of decode_status (src/wtc3_logger/status.py lines 76-133):
coerce the input with int(); on TypeError/ValueError return the empty
StatusDetail, otherwise decode the word. -/
def decode_status (value : PyVal)
    (bit_labels : Option (List (ℕ × String)) := none) : StatusDetail :=
  match pyIntCoerce value with
  | none => ⟨none, [], []⟩
  | some raw => decodeWord raw bit_labels

/-- A Python float value including the non-finite ones: float of a
literal like 1e999 overflows to inf without raising, so infinite floats
are reachable values of the Number type the decoder accepts. -/
inductive PyFloat where
  | finite (q : ℚ)
  | infF (neg : Bool)
  | nanF
  deriving DecidableEq, Repr

/-- Number | str | None with the full float domain. -/
inductive PyValE where
  | intV (z : ℤ)
  | floatV (f : PyFloat)
  | strV (s : String)
  | noneV
  deriving DecidableEq, Repr

/-- The exception kinds int(value) can raise on these inputs. -/
inductive PyExcKind where
  | typeError
  | valueError
  | overflowError
  deriving DecidableEq, Repr

/-- Python int(value) with its exception kind kept: an infinite float
raises OverflowError, nan raises ValueError, an unparsable string raises
ValueError, None raises TypeError. -/
def pyIntE : PyValE → Except PyExcKind ℤ
  | .intV z => .ok z
  | .floatV (.finite q) => .ok (pyTruncQ q)
  | .floatV (.infF _) => .error .overflowError
  | .floatV .nanF => .error .valueError
  | .strV s =>
    match pyInt? s with
    | some z => .ok z
    | none => .error .valueError
  | .noneV => .error .typeError

/-- Embedding of decode_status (src/wtc3_logger/status.py lines 76-85)
with the exception path kept: the conditional skips int() for None, and
the except clause catches only TypeError and ValueError, so the
OverflowError of an infinite float propagates to the caller (the .error
result is that uncaught exception). -/
def decode_statusE (value : PyValE)
    (bit_labels : Option (List (ℕ × String)) := none) :
    Except PyExcKind StatusDetail :=
  match value with
  | .noneV => .ok ⟨none, [], []⟩
  | v =>
    match pyIntE v with
    | .ok raw => .ok (decodeWord raw bit_labels)
    | .error .typeError => .ok ⟨none, [], []⟩
    | .error .valueError => .ok ⟨none, [], []⟩
    | .error .overflowError => .error .overflowError

/-! ## Export stem construction (src/wtc3_logger/export_utils.py) -/

/-- ASCII letters and digits, the class the sanitizer keeps. -/
def isAsciiAlnum (c : Char) : Bool :=
  ('0' ≤ c && c ≤ '9') || ('A' ≤ c && c ≤ 'Z') || ('a' ≤ c && c ≤ 'z')

/-- Approximates unicodedata.normalize NFKD followed by ASCII
encode/ignore: ASCII characters pass through, Latin letters whose NFKD
form is an ASCII base letter plus combining marks keep the base letter,
any other non-ASCII character is dropped. -/
def asciiFold (c : Char) : List Char :=
  if c.toNat < 128 then [c]
  else if c = 'ä' || c = 'á' || c = 'à' || c = 'â' || c = 'ã' || c = 'å' then ['a']
  else if c = 'Ä' || c = 'Á' || c = 'À' || c = 'Â' || c = 'Ã' || c = 'Å' then ['A']
  else if c = 'é' || c = 'è' || c = 'ê' || c = 'ë' then ['e']
  else if c = 'É' || c = 'È' || c = 'Ê' || c = 'Ë' then ['E']
  else if c = 'í' || c = 'ì' || c = 'î' || c = 'ï' then ['i']
  else if c = 'Í' || c = 'Ì' || c = 'Î' || c = 'Ï' then ['I']
  else if c = 'ö' || c = 'ó' || c = 'ò' || c = 'ô' || c = 'õ' then ['o']
  else if c = 'Ö' || c = 'Ó' || c = 'Ò' || c = 'Ô' || c = 'Õ' then ['O']
  else if c = 'ü' || c = 'ú' || c = 'ù' || c = 'û' then ['u']
  else if c = 'Ü' || c = 'Ú' || c = 'Ù' || c = 'Û' then ['U']
  else if c = 'ñ' then ['n']
  else if c = 'Ñ' then ['N']
  else if c = 'ç' then ['c']
  else if c = 'Ç' then ['C']
  else []

/-- re.sub of every maximal run of non-alphanumeric characters by a single
dash; the flag records whether the previous character belonged to such a
run. -/
def collapseAux : Bool → List Char → List Char
  | _, [] => []
  | inRun, c :: cs =>
    if isAsciiAlnum c then c :: collapseAux false cs
    else if inRun then collapseAux true cs
    else '-' :: collapseAux true cs

/-- str.strip of dashes and underscores from both ends. -/
def stripDashU (l : List Char) : List Char :=
  let p := fun c => c = '-' || c = '_'
  ((l.dropWhile p).reverse.dropWhile p).reverse

/-- Embedding of _sanitize_token (src/wtc3_logger/export_utils.py lines
10-15): NFKD/ascii fold, collapse non-alphanumeric runs to a dash, strip
dashes and underscores from the ends. -/
def sanitizeToken (raw : Option String) : String :=
  match raw with
  | none => ""
  | some r =>
    if r = "" then ""
    else String.mk (stripDashU (collapseAux false ((r.data.map asciiFold).flatten)))

/-- Embedding of build_export_stem (src/wtc3_logger/export_utils.py lines
18-32).  The datetime argument is modelled by the string its strftime
"%Y%m%d_%H%M%S" produces (the only use the code makes of it). -/
def buildExportStem (session_stem : String)
    (meta : List (String × String)) : String :=
  let battery := sanitizeToken (dictGet meta "P70")
  let cradle := sanitizeToken (dictGet meta "P07")
  let parts := [session_stem]
    ++ (if battery ≠ "" then [battery] else [])
    ++ (if cradle ≠ "" then [cradle] else [])
  let parts2 := if parts.length = 1 then parts ++ ["raw"] else parts
  String.intercalate "_" parts2

/-! ## Acquisition controller (src/wtc3_logger/acquisition.py)

The controller manipulates the filesystem and a serial port; those
externals are modelled by an oracle Env of success predicates (treated as
unchanging during a single control call), and every file operation and
every emitted Qt signal is recorded in an effect list the operations
return alongside the new state. -/

/-- A filesystem path as its list of components. -/
structure FPath where
  parts : List String
  deriving DecidableEq, Repr

/-- path / name. -/
def FPath.child (p : FPath) (name : String) : FPath :=
  ⟨p.parts ++ [name]⟩

/-- pathlib Path.name: the final component. -/
def FPath.nameOf (p : FPath) : String :=
  p.parts.getLastD ""

/-- pathlib Path.parent. -/
def FPath.parent (p : FPath) : FPath :=
  ⟨p.parts.dropLast⟩

/-- Index of the last dot of a name, as str.rfind. -/
def rfindDot (l : List Char) : Option ℕ :=
  (List.range l.length).foldl
    (fun acc i => if l.getD i ' ' = '.' then some i else acc) none

/-- pathlib Path.suffix of a final component: the part from the last dot,
provided that dot is neither the first nor the last character. -/
def nameSuffix (name : String) : String :=
  let l := name.data
  match rfindDot l with
  | some i => if 0 < i ∧ i < l.length - 1 then String.mk (l.drop i) else ""
  | none => ""

/-- pathlib Path.stem of a final component. -/
def nameStem (name : String) : String :=
  let l := name.data
  match rfindDot l with
  | some i => if 0 < i ∧ i < l.length - 1 then String.mk (l.take i) else name
  | none => name

/-- Embedding of SerialConfig (src/wtc3_logger/config.py lines 20-27). -/
structure SerialCfg where
  port : String
  baudrate : ℕ
  newline : String
  enabled : Bool
  deriving DecidableEq, Repr

/-- Embedding of the AppConfig fields the acquisition controller reads
(src/wtc3_logger/config.py lines 30-41); the UI-only fields do not
influence acquisition and are omitted.  persist_path is optional here
because update_export_meta assigns None to it on a reopen failure. -/
structure AppConfig where
  serial : SerialCfg
  sample_file : Option FPath
  persist_csv : Bool
  persist_path : Option FPath
  deriving DecidableEq, Repr

/-- The configuration proper: every AppConfig field except persist_path.
The controller keeps mutating persist_path of its recorded config object
as part of the raw-log lifecycle, so statements about which configuration
is recorded compare this projection. -/
def AppConfig.core (c : AppConfig) : SerialCfg × Option FPath × Bool :=
  (c.serial, c.sample_file, c.persist_csv)

/-- The two source thread variants of src/wtc3_logger/serial_reader.py,
by their construction data. -/
inductive SourceThread where
  | fileTail (path : FPath)
  | serialReader (port : String) (baudrate : ℕ) (newline : String)
  deriving DecidableEq, Repr

/-- The AcquisitionError values _build_thread raises
(src/wtc3_logger/acquisition.py lines 103-119). -/
inductive AcqError where
  | sampleNotFound (p : FPath)
  | serialFailed (port : String)
  deriving DecidableEq, Repr

/-- Oracle for the externals: file existence, whether opening a log file
for append succeeds, whether a rename succeeds, and whether the serial
port opens. -/
structure Env where
  fileExists : FPath → Bool
  openOk : FPath → Bool
  renameOk : FPath → FPath → Bool
  serialOk : SerialCfg → Bool

/-- The Qt signals the controller emits. -/
inductive Signal where
  | statusMsg (msg : String) (ms : ℕ)
  | errorMsg (e : AcqError)
  | logUnavailable (p : FPath)
  | renameFailed (src tgt : FPath)
  | configChanged (c : AppConfig)
  deriving DecidableEq, Repr

/-- The filesystem operations the controller performs on the raw log. -/
inductive FileOp where
  | mkdirOp (p : FPath)
  | openOp (p : FPath)
  | closeOp (p : FPath)
  | renameOp (src tgt : FPath)
  deriving DecidableEq, Repr

/-- One observable effect: a signal emission or a file operation. -/
inductive Eff where
  | sig (s : Signal)
  | fop (f : FileOp)
  deriving DecidableEq, Repr

/-- The mutable fields of AcquisitionController
(src/wtc3_logger/acquisition.py lines 29-43).  The open file handle
_raw_log is modelled by the path it was opened at; _session_started and
_session_stem collapse to the formatted stem string. -/
structure AcqState where
  config : AppConfig
  bus : BusState
  thread : Option SourceThread
  session_stem : String
  raw_log : Option FPath
  raw_log_path : Option FPath
  raw_log_dir : Option FPath
  raw_log_suffix : String
  export_stem : Option String
  deriving DecidableEq, Repr

/-- Embedding of _describe_source (src/wtc3_logger/acquisition.py lines
251-257). -/
def describeSource (c : AppConfig) : String :=
  match c.sample_file with
  | some p => "Streaming from sample file: " ++ p.nameOf
  | none =>
    if c.serial.enabled ∧ c.serial.port ≠ "" then
      "Serial connection active (" ++ c.serial.port ++ " @ "
        ++ toString c.serial.baudrate ++ ")"
    else "No input configured."

/-- Embedding of _close_raw_log (src/wtc3_logger/acquisition.py lines
168-186): close the handle if open, then, when a path, a directory and a
non-empty export stem are recorded, attempt to rename the on-disk file to
the stem (best effort; a failed rename is swallowed). -/
def closeRawLog (env : Env) (s : AcqState) : AcqState × List Eff :=
  let current := s.raw_log_path
  let closeEffs : List Eff := match s.raw_log with
    | some h => [.fop (.closeOp h)]
    | none => []
  let s1 := { s with raw_log := none }
  match current, s1.raw_log_dir, s1.export_stem with
  | some cp, some d, some es =>
    if es ≠ "" then
      let target := d.child (es ++ s1.raw_log_suffix)
      if target ≠ cp ∧ env.fileExists cp then
        if env.renameOk cp target then
          ({ s1 with raw_log_path := some target,
                     config := { s1.config with persist_path := some target } },
           closeEffs ++ [.fop (.renameOp cp target)])
        else (s1, closeEffs ++ [.fop (.renameOp cp target)])
      else (s1, closeEffs)
    else (s1, closeEffs)
  | _, _, _ => (s1, closeEffs)

/-- Embedding of _configure_raw_log (src/wtc3_logger/acquisition.py lines
137-166): reset the raw-log fields, then derive directory, suffix and
initial stem from the requested path, create the directory and open the
initial file in append mode; an open failure is reported and leaves
logging off. -/
def configureRawLog (env : Env) (s : AcqState) (path : Option FPath) :
    AcqState × List Eff :=
  let (s1, e1) := closeRawLog env s
  let s2 := { s1 with raw_log_path := none, raw_log_dir := none,
                      raw_log_suffix := ".tsv", export_stem := none }
  match path with
  | none => (s2, e1)
  | some resolved =>
    let sfx := nameSuffix resolved.nameOf
    let hasSuffix := sfx ≠ ""
    let dir := if hasSuffix then resolved.parent else resolved
    let initial_stem :=
      if hasSuffix then
        (if nameStem resolved.nameOf ≠ "" then nameStem resolved.nameOf
         else s2.session_stem ++ "_raw")
      else s2.session_stem ++ "_raw"
    let s3 := { s2 with raw_log_dir := some dir,
                        raw_log_suffix := if hasSuffix then sfx else s2.raw_log_suffix }
    let initial_path := dir.child (initial_stem ++ s3.raw_log_suffix)
    let effs := e1 ++ [.fop (.mkdirOp dir), .fop (.openOp initial_path)]
    if env.openOk initial_path then
      ({ s3 with raw_log := some initial_path,
                 raw_log_path := some initial_path,
                 config := { s3.config with persist_path := some initial_path },
                 export_stem := if hasSuffix then some initial_stem else none },
       effs)
    else
      ({ s3 with raw_log := none, raw_log_path := none },
       effs ++ [.sig (.logUnavailable initial_path)])

/-- Embedding of _build_thread (src/wtc3_logger/acquisition.py lines
103-119): a configured sample file takes priority over an enabled serial
port; neither configured means no thread (not an error). -/
def buildThread (env : Env) (c : AppConfig) :
    Except AcqError (Option SourceThread) :=
  match c.sample_file with
  | some p =>
    if env.fileExists p then .ok (some (.fileTail p))
    else .error (.sampleNotFound p)
  | none =>
    if c.serial.enabled ∧ c.serial.port ≠ "" then
      if env.serialOk c.serial then
        .ok (some (.serialReader c.serial.port c.serial.baudrate c.serial.newline))
      else .error (.serialFailed c.serial.port)
    else .ok none

/-- Embedding of _start_with_config (src/wtc3_logger/acquisition.py lines
86-101): record the config, reset the bus, configure the raw log, build
the thread; a build failure closes the raw log again and propagates as
the returned error, with every state change made so far kept (Python
exception semantics). -/
def startWithConfig (env : Env) (s : AcqState) (c : AppConfig) :
    AcqState × List Eff × Option AcqError :=
  let s1 := { s with config := c, bus := DataBus.reset s.bus }
  let (s2, e1) := configureRawLog env s1
    (if c.persist_csv then c.persist_path else none)
  match buildThread env c with
  | .error err =>
    let (s3, e2) := closeRawLog env s2
    (s3, e1 ++ e2, some err)
  | .ok t =>
    let s3 := { s2 with thread := t }
    let msg := match t with
      | some _ => Signal.statusMsg (describeSource c) 4000
      | none => Signal.statusMsg "No data source configured." 4000
    (s3, e1 ++ [.sig msg, .sig (.configChanged s3.config)], none)

/-- Embedding of stop (src/wtc3_logger/acquisition.py lines 58-68): a
no-op without an active thread, otherwise drop the thread and close the
raw log. -/
def stopCtl (env : Env) (s : AcqState) : AcqState × List Eff :=
  match s.thread with
  | none => (s, [])
  | some _ => closeRawLog env { s with thread := none }

/-- Embedding of apply_config (src/wtc3_logger/acquisition.py lines
70-84): stop, try the new config; on failure try the previous config and
emit the triggering error, returning false.  The assignment
self._config = previous_config in the rollback except branch is a no-op
under Python reference semantics: the rollback _start_with_config already
set self._config to that same object, and everything after only mutates
its persist_path field in place; so the branch leaves the rollback state
as is. -/
def applyConfig (env : Env) (s : AcqState) (newCfg : AppConfig) :
    (AcqState × List Eff) × Bool :=
  let previous := s.config
  let (s1, e1) := stopCtl env s
  match startWithConfig env s1 newCfg with
  | (s2, e2, none) => ((s2, e1 ++ e2), true)
  | (s2, e2, some err) =>
    match startWithConfig env s2 previous with
    | (s3, e3, _) =>
      ((s3, e1 ++ e2 ++ e3 ++ [.sig (.errorMsg err)]), false)

/-- Embedding of update_export_meta (src/wtc3_logger/acquisition.py lines
189-238): recompute the stem from the meta block; an empty or unchanged
stem is a no-op; otherwise record the stem and, when a log is open at a
different path, close it, attempt the on-disk rename, reopen, and report
a rename or reopen failure. -/
def updateExportMeta (env : Env) (s : AcqState)
    (meta : List (String × String)) : AcqState × List Eff :=
  match s.raw_log_dir with
  | none => (s, [])
  | some d =>
    let new_stem := buildExportStem s.session_stem meta
    if new_stem = "" ∨ s.export_stem = some new_stem then (s, [])
    else
      let target := d.child (new_stem ++ s.raw_log_suffix)
      let s1 := { s with export_stem := some new_stem }
      match s1.raw_log with
      | none =>
        ({ s1 with raw_log_path := some target,
                   config := { s1.config with persist_path := some target } }, [])
      | some h =>
        let current := s1.raw_log_path
        if current = some target then
          ({ s1 with raw_log_path := some target,
                     config := { s1.config with persist_path := some target } }, [])
        else
          let s2 := { s1 with raw_log := none }
          let closeE : List Eff := [.fop (.closeOp h)]
          let res : FPath × List Eff × List Eff :=
            match current with
            | some cp =>
              if env.fileExists cp then
                if env.renameOk cp target then
                  (target, [.fop (.renameOp cp target)], [])
                else (cp, [.fop (.renameOp cp target)],
                      [.sig (.renameFailed cp target)])
              else (target, [], [])
            | none => (target, [], [])
          let reopened := res.1
          if env.openOk reopened then
            ({ s2 with raw_log := some reopened, raw_log_path := some reopened,
                       config := { s2.config with persist_path := some reopened } },
             closeE ++ res.2.1 ++ [.fop (.openOp reopened)] ++ res.2.2)
          else
            ({ s2 with raw_log := none, raw_log_path := none,
                       config := { s2.config with persist_path := none } },
             closeE ++ res.2.1 ++ [.fop (.openOp reopened),
                                   .sig (.logUnavailable reopened)])

/-- The four lines tests/test_parser.py feeds in
test_parser_emits_header_and_filters_control_chars; the last carries the
control bytes STX and ETX attached to tokens. -/
def controlTestLines : List String :=
  ["P04 P07", "CC_CV WTC3206", "P05 P06 P40", "\x0231248 1 13030\x03"]

/-! ## Theorems -/

/-- C1: for every bus state, reset() empties the stored records (a
subsequent snapshot() returns the empty list), increments the generation
counter by exactly one, and leaves the stored meta block unchanged. -/
theorem databus_reset_generation (s : BusState) :
    DataBus.snapshot (DataBus.reset s) = [] ∧
    DataBus.generation (DataBus.reset s) = DataBus.generation s + 1 ∧
    DataBus.metaOf (DataBus.reset s) = DataBus.metaOf s :=
  ⟨rfl, rfl, rfl⟩

/-- C7 fails on the code: the except clause at
src/wtc3_logger/status.py lines 81-82 catches TypeError and ValueError
only, while int of an infinite float raises OverflowError — so
decode_status raises on the non-coercible input float inf instead of
returning the empty StatusDetail (an infinite float is reachable, since
float of a token like 1e999 overflows to inf without raising).  The
claimed example inputs, whose coercion fails with a caught kind, do
degrade to the empty StatusDetail. -/
theorem decode_status_raises_on_inf :
    decode_statusE (.floatV (.infF false)) none
        = .error .overflowError ∧
    decode_statusE (.strV "invalid") none = .ok ⟨none, [], []⟩ ∧
    decode_statusE .noneV none = .ok ⟨none, [], []⟩ :=
  ⟨rfl, rfl, rfl⟩

/-- C10: decode_status coerces with int(), so a float input is truncated
toward zero and decodes like the truncated integer word (27/2 decodes
with raw_value 13), while the string 13.5 is not coercible and yields the
empty StatusDetail: numerically equal inputs of different types decode
differently. -/
theorem decode_status_float_vs_string (q : ℚ)
    (bl : Option (List (ℕ × String))) :
    decode_status (PyVal.floatV q) bl
      = decode_status (PyVal.intV (pyTruncQ q)) bl ∧
    (decode_status (PyVal.floatV (27 / 2 : ℚ)) bl).raw_value = some 13 ∧
    decode_status (PyVal.strV "13.5") bl = ⟨none, [], []⟩ := by
  refine ⟨rfl, ?_, ?_⟩
  · show (decodeWord (pyTruncQ (27 / 2 : ℚ)) bl).raw_value = some 13
    have h13 : pyTruncQ (27 / 2 : ℚ) = 13 := by
      unfold pyTruncQ
      norm_num
    rw [h13]
    rfl
  · rfl

/-- C8: while the parser phase is expect_meta_values the header/values
heuristic is bypassed: every non-blank line is consumed positionally as
the meta values line, zipped with meta_hdr into a fresh meta mapping, and
the phase returns to find_header (meta_hdr and data_hdr untouched, no
events). -/
theorem parser_meta_values_bypass (s : ParserState) (line : String)
    (hphase : s.phase = .expect_meta_values)
    (hline : isBlank line = false) :
    feedLine s line =
      ({ s with meta := dictOfZip s.meta_hdr (split_ws line),
                phase := .find_header }, []) := by
  unfold feedLine handleValues
  simp [hline, hphase]

/-- Witness for C8: a pending meta-values phase consumes a line whose
tokens are all non-numeric (a line the heuristic would call a header). -/
theorem parser_meta_values_bypass_witness :
    (⟨["P04", "P07"], [], [], .expect_meta_values⟩ : ParserState).phase
        = .expect_meta_values ∧
    isBlank "P10 P11" = false ∧
    feedLine ⟨["P04", "P07"], [], [], .expect_meta_values⟩ "P10 P11" =
      (⟨["P04", "P07"], [("P04", "P10"), ("P07", "P11")], [],
        .find_header⟩, []) := by
  refine ⟨rfl, by decide, ?_⟩
  exact (parser_meta_values_bypass
    ⟨["P04", "P07"], [], [], .expect_meta_values⟩ "P10 P11" rfl
    (by decide)).trans (by decide)

/-- C9: a values line (majority-numeric tokens) fed in the initial
find_header phase before any header has been seen is a silent no-op: the
state is returned unchanged and no callback event is emitted. -/
theorem parser_values_before_header_noop (s : ParserState) (line : String)
    (hphase : s.phase = .find_header)
    (hmeta : s.meta_hdr = []) (hdata : s.data_hdr = [])
    (hline : isBlank line = false)
    (hvals : ((split_ws line).filter (fun t => !isNumber t)).length
        < max 1 ((split_ws line).length / 2)) :
    feedLine s line = (s, []) := by
  have hno : ¬ (max 1 ((split_ws line).length / 2)
      ≤ ((split_ws line).filter (fun t => !isNumber t)).length) :=
    Nat.not_le.mpr hvals
  unfold feedLine handleValues
  simp [hline, hphase, hno]

/-- Witness for C9: an all-numeric line fed to the fresh parser leaves it
unchanged and emits nothing. -/
theorem parser_values_before_header_noop_witness :
    ParserState.init.phase = .find_header ∧
    isBlank "31248 1 13030" = false ∧
    feedLine ParserState.init "31248 1 13030" = (ParserState.init, []) :=
  ⟨rfl, by decide,
   parser_values_before_header_noop ParserState.init "31248 1 13030"
     rfl rfl rfl (by decide) (by decide)⟩

/-- C2 (on_data_header modelled from the spec, being absent from the src
parser): a line classified as a header while meta_hdr and data_hdr are
both already non-empty fires the data-header callback with the new
tokens; a header line that first fills meta_hdr or first fills data_hdr
fires nothing. -/
theorem parser_data_header_callback (s : ParserState) (line : String)
    (hline : isBlank line = false)
    (hphase : s.phase ≠ .expect_meta_values)
    (hhdr : max 1 ((split_ws line).length / 2)
        ≤ ((split_ws line).filter (fun t => !isNumber t)).length) :
    ((s.meta_hdr ≠ [] ∧ s.data_hdr ≠ []) →
        (feedLine s line).2 = [.dataHeader (split_ws line)]) ∧
    ((s.meta_hdr = [] ∨ s.data_hdr = []) →
        (feedLine s line).2 = []) := by
  have hfeed : feedLine s line =
      (handleHeader s (split_ws line), handleHeaderEvents s (split_ws line)) := by
    unfold feedLine
    simp [hline, hphase, hhdr]
  rw [hfeed]
  unfold handleHeaderEvents
  constructor
  · rintro ⟨h1, h2⟩
    simp [List.isEmpty_iff, h1, h2]
  · rintro (h1 | h1) <;> simp [List.isEmpty_iff, h1]

/-- Witness for C2: with both headers present the callback fires with the
replacing tokens; on the fresh parser the first header fires nothing. -/
theorem parser_data_header_callback_witness :
    (feedLine ⟨["P04", "P07"], [("P04", "CC_CV")], ["P05"], .data⟩
        "P05 P06 P40").2 = [.dataHeader ["P05", "P06", "P40"]] ∧
    (feedLine (⟨[], [], [], .find_header⟩ : ParserState) "P04 P07 P08").2
        = [] := by
  constructor
  · exact ((parser_data_header_callback
      ⟨["P04", "P07"], [("P04", "CC_CV")], ["P05"], .data⟩ "P05 P06 P40"
      (by decide) (by decide) (by decide)).1 (by decide)).trans (by decide)
  · exact (parser_data_header_callback
      (⟨[], [], [], .find_header⟩ : ParserState) "P04 P07 P08"
      (by decide) (by decide) (by decide)).2 (Or.inl rfl)

/-- C3 fails on the src code: split_ws and feed_line never strip control
bytes, so the token STX-31248 does not parse as a float and the line
STX-31248 1 13030-ETX counts two of three tokens as non-numeric — it is
classified as a header that replaces the data header, and feeding the
full four-line test sample of tests/test_parser.py produces no record at
all (the test expects a record with P05 = 31248). -/
theorem control_bytes_not_stripped :
    isNumber "\x0231248" = false ∧
    (feed ParserState.init controlTestLines).1.data_hdr
        = ["\x0231248", "1", "13030\x03"] ∧
    ((feed ParserState.init controlTestLines).2.filter ParserEvent.isRec)
        = [] := by
  refine ⟨by decide, by decide, by decide⟩

/-- Folding bounded-deque pushes over a list appends it and keeps the
last N elements, for any start buffer within capacity. -/
theorem pushMax_foldl (N : ℕ) (rs : List Rec) :
    ∀ l : List Rec, l.length ≤ N →
      rs.foldl (DataBus.pushMax N) l
        = (l ++ rs).drop (l.length + rs.length - N) := by
  induction rs with
  | nil =>
    intro l hl
    simp [Nat.sub_eq_zero_of_le hl]
  | cons r rest ih =>
    intro l hl
    have hstep : DataBus.pushMax N l r
        = (l ++ [r]).drop (l.length + 1 - N) := rfl
    have hlen : (DataBus.pushMax N l r).length = min (l.length + 1) N := by
      rw [hstep, List.length_drop, List.length_append, List.length_singleton]
      omega
    have hle : (DataBus.pushMax N l r).length ≤ N := by
      rw [hlen]; omega
    calc (r :: rest).foldl (DataBus.pushMax N) l
        = rest.foldl (DataBus.pushMax N) (DataBus.pushMax N l r) := rfl
      _ = ((DataBus.pushMax N l r) ++ rest).drop
            ((DataBus.pushMax N l r).length + rest.length - N) := ih _ hle
      _ = (l ++ r :: rest).drop (l.length + (r :: rest).length - N) := by
          rw [hlen, hstep]
          rw [← List.drop_append_of_le_length
            (by simp only [List.length_append, List.length_singleton]; omega)]
          rw [List.drop_drop]
          have hl2 : l ++ [r] ++ rest = l ++ r :: rest := by simp
          rw [hl2]
          congr 1
          simp only [List.length_cons]
          omega

/-- The records of a bus after a sequence of appends are the pushed
records folded into the start records. -/
theorem appendAll_records (N : ℕ)
    (xs : List (List (String × String) × Rec)) :
    ∀ s : BusState,
      (xs.foldl (fun b x => DataBus.append N b x.1 x.2) s).records
        = (xs.map Prod.snd).foldl (DataBus.pushMax N) s.records := by
  induction xs with
  | nil => intro s; rfl
  | cons x rest ih => intro s; exact ih _

/-- C4: for every capacity N and every finite sequence of append calls on
a fresh bus, the bus never holds more than N records, and snapshot()
returns exactly the last min(total, N) appended records in insertion
order (oldest evicted first). -/
theorem databus_capacity_fifo (N : ℕ)
    (xs : List (List (String × String) × Rec)) :
    DataBus.snapshot (xs.foldl (fun b x => DataBus.append N b x.1 x.2)
        DataBus.init)
      = (xs.map Prod.snd).drop (xs.length - N) ∧
    (DataBus.snapshot (xs.foldl (fun b x => DataBus.append N b x.1 x.2)
        DataBus.init)).length ≤ N := by
  have h1 : DataBus.snapshot (xs.foldl
      (fun b x => DataBus.append N b x.1 x.2) DataBus.init)
      = (xs.map Prod.snd).drop (xs.length - N) := by
    show (xs.foldl (fun b x => DataBus.append N b x.1 x.2)
      DataBus.init).records = _
    rw [appendAll_records]
    have h0 : (DataBus.init).records = ([] : List Rec) := rfl
    rw [h0, pushMax_foldl N _ [] (by simp)]
    simp
  refine ⟨h1, ?_⟩
  rw [h1, List.length_drop, List.length_map]
  omega

/-- C6: recomputing the export stem is idempotent: with an open raw log
and a meta block whose recomputed stem equals the recorded export stem,
update_export_meta changes nothing — no rename, no close or reopen of
the handle, no signal, and the raw log path is untouched. -/
theorem update_export_meta_idempotent (env : Env) (s : AcqState)
    (meta : List (String × String)) (h : FPath) (stem : String)
    (hopen : s.raw_log = some h)
    (hstem : s.export_stem = some stem)
    (heq : buildExportStem s.session_stem meta = stem) :
    updateExportMeta env s meta = (s, []) := by
  unfold updateExportMeta
  cases hdir : s.raw_log_dir with
  | none => rfl
  | some d =>
    rw [heq, hstem]
    simp

/-- Witness for C6: a controller with an open log at the recorded stem
and a meta block that recomputes to the very same stem. -/
theorem update_export_meta_idempotent_witness :
    (let sW : AcqState :=
      ⟨⟨⟨"", 115200, "\n", false⟩, none, true, some ⟨["logs", "x.tsv"]⟩⟩,
       DataBus.init, none, "20240101_120000",
       some ⟨["logs", "x.tsv"]⟩, some ⟨["logs", "x.tsv"]⟩,
       some ⟨["logs"]⟩, ".tsv",
       some "20240101_120000_PMNN4809A_WTC3206"⟩
     buildExportStem sW.session_stem
          [("P70", "PMNN4809A"), ("P07", "WTC3206")]
        = "20240101_120000_PMNN4809A_WTC3206" ∧
     updateExportMeta
        ⟨fun _ => true, fun _ => true, fun _ _ => true, fun _ => true⟩
        sW [("P70", "PMNN4809A"), ("P07", "WTC3206")] = (sW, [])) := by
  refine ⟨by decide, ?_⟩
  exact update_export_meta_idempotent _ _ _ ⟨["logs", "x.tsv"]⟩
    "20240101_120000_PMNN4809A_WTC3206" rfl rfl (by decide)

/-- Closing the raw log touches neither the thread nor the configuration
proper. -/
theorem closeRawLog_frame (env : Env) (s : AcqState) :
    (closeRawLog env s).1.thread = s.thread ∧
    (closeRawLog env s).1.config.core = s.config.core := by
  unfold closeRawLog AppConfig.core
  dsimp only
  repeat' split
  all_goals exact ⟨rfl, rfl⟩

/-- Configuring the raw log touches neither the thread nor the
configuration proper. -/
theorem configureRawLog_frame (env : Env) (s : AcqState)
    (p : Option FPath) :
    (configureRawLog env s p).1.thread = s.thread ∧
    (configureRawLog env s p).1.config.core = s.config.core := by
  obtain ⟨hth, hcore⟩ := closeRawLog_frame env s
  rcases hcl : closeRawLog env s with ⟨s1, e1⟩
  rw [hcl] at hth hcore
  unfold configureRawLog
  dsimp only
  rw [hcl]
  cases p with
  | none => exact ⟨hth, hcore⟩
  | some r =>
    simp only [AppConfig.core] at hcore ⊢
    repeat' split
    all_goals exact ⟨hth, hcore⟩

/-- Stopping leaves no active thread and keeps the configuration
proper. -/
theorem stopCtl_frame (env : Env) (s : AcqState) :
    (stopCtl env s).1.thread = none ∧
    (stopCtl env s).1.config.core = s.config.core := by
  unfold stopCtl
  cases hth : s.thread with
  | none => exact ⟨hth, rfl⟩
  | some t =>
    obtain ⟨h1, h2⟩ := closeRawLog_frame env { s with thread := none }
    exact ⟨h1, h2⟩

/-- A successful _start_with_config installs the built thread, records
the new configuration and reports no error. -/
theorem startWithConfig_ok (env : Env) (s : AcqState) (c : AppConfig)
    (t : Option SourceThread) (h : buildThread env c = .ok t) :
    (startWithConfig env s c).2.2 = none ∧
    (startWithConfig env s c).1.thread = t ∧
    (startWithConfig env s c).1.config.core = c.core := by
  unfold startWithConfig
  rcases hcf : configureRawLog env { s with config := c, bus := DataBus.reset s.bus }
      (if c.persist_csv then c.persist_path else none) with ⟨s2, e1⟩
  obtain ⟨hth2, hcore2⟩ := configureRawLog_frame env
    { s with config := c, bus := DataBus.reset s.bus }
    (if c.persist_csv then c.persist_path else none)
  rw [hcf] at hth2 hcore2
  unfold AppConfig.core at hcore2 ⊢
  dsimp only
  rw [hcf, h]
  exact ⟨rfl, rfl, hcore2⟩

/-- A failed _start_with_config keeps the thread that was active before,
records the attempted configuration and returns the build error. -/
theorem startWithConfig_err (env : Env) (s : AcqState) (c : AppConfig)
    (e : AcqError) (h : buildThread env c = .error e) :
    (startWithConfig env s c).2.2 = some e ∧
    (startWithConfig env s c).1.thread = s.thread ∧
    (startWithConfig env s c).1.config.core = c.core := by
  unfold startWithConfig
  rcases hcf : configureRawLog env { s with config := c, bus := DataBus.reset s.bus }
      (if c.persist_csv then c.persist_path else none) with ⟨s2, e1⟩
  obtain ⟨hth2, hcore2⟩ := configureRawLog_frame env
    { s with config := c, bus := DataBus.reset s.bus }
    (if c.persist_csv then c.persist_path else none)
  rw [hcf] at hth2 hcore2
  obtain ⟨hth3, hcore3⟩ := closeRawLog_frame env s2
  rcases hcl : closeRawLog env s2 with ⟨s3, e2⟩
  rw [hcl] at hth3 hcore3
  dsimp only
  rw [hcf, h, hcl]
  exact ⟨rfl, hth3.trans hth2, hcore3.trans hcore2⟩

/-- C5: apply_config stops the current source and attempts the new
configuration; it returns true exactly when that start succeeds (then the
built thread is installed and the new configuration is recorded).  When
the new configuration fails to start, it returns false, emits the
triggering error, records the previous configuration (up to the
persist_path field the raw-log lifecycle rewrites on the shared config
object), installs whatever the rollback start of the previous
configuration builds, and, when the rollback start fails as well, is left
with no active source. -/
theorem apply_config_rollback (env : Env) (s : AcqState) (c : AppConfig) :
    ((applyConfig env s c).2 = true ↔ ∃ t, buildThread env c = .ok t) ∧
    (∀ t, buildThread env c = .ok t →
      (applyConfig env s c).1.1.thread = t ∧
      (applyConfig env s c).1.1.config.core = c.core) ∧
    (∀ e, buildThread env c = .error e →
      (applyConfig env s c).2 = false ∧
      Eff.sig (Signal.errorMsg e) ∈ (applyConfig env s c).1.2 ∧
      (applyConfig env s c).1.1.config.core = s.config.core ∧
      (∀ t, buildThread env s.config = .ok t →
        (applyConfig env s c).1.1.thread = t) ∧
      (∀ e2, buildThread env s.config = .error e2 →
        (applyConfig env s c).1.1.thread = none)) := by
  obtain ⟨hth1, hcore1⟩ := stopCtl_frame env s
  rcases hstop : stopCtl env s with ⟨s1, e1⟩
  rw [hstop] at hth1 hcore1
  unfold applyConfig
  dsimp only
  rw [hstop]
  cases hb : buildThread env c with
  | ok t =>
    obtain ⟨hnone, hth2, hcore2⟩ := startWithConfig_ok env s1 c t hb
    rcases hsw : startWithConfig env s1 c with ⟨s2, e2, err⟩
    rw [hsw] at hnone hth2 hcore2
    have herr : err = none := hnone
    subst herr
    dsimp only
    refine ⟨?_, ?_, ?_⟩
    · exact ⟨fun _ => ⟨t, rfl⟩, fun _ => rfl⟩
    · intro t2 ht2
      injection ht2 with h
      subst h
      exact ⟨hth2, hcore2⟩
    · intro e he
      exact Except.noConfusion he
  | error e0 =>
    obtain ⟨hsome, hth2, hcore2⟩ := startWithConfig_err env s1 c e0 hb
    rcases hsw : startWithConfig env s1 c with ⟨s2, e2, err⟩
    rw [hsw] at hsome hth2 hcore2
    have herr : err = some e0 := hsome
    subst herr
    dsimp only
    cases hb2 : buildThread env s.config with
    | ok t2 =>
      obtain ⟨hnone3, hth3, hcore3⟩ := startWithConfig_ok env s2 s.config t2 hb2
      rcases hsw2 : startWithConfig env s2 s.config with ⟨s3, e3, err3⟩
      rw [hsw2] at hnone3 hth3 hcore3
      dsimp only
      refine ⟨?_, ?_, ?_⟩
      · constructor
        · intro h
          exact absurd h (by simp)
        · rintro ⟨t3, ht3⟩
          exact Except.noConfusion ht3
      · intro t3 ht3
        exact Except.noConfusion ht3
      · intro e he
        injection he with h
        subst h
        refine ⟨rfl, by simp, hcore3, ?_, ?_⟩
        · intro t4 ht4
          injection ht4 with h4
          subst h4
          exact hth3
        · intro e2 he2
          exact Except.noConfusion he2
    | error e1b =>
      obtain ⟨hsome3, hth3, hcore3⟩ := startWithConfig_err env s2 s.config e1b hb2
      rcases hsw2 : startWithConfig env s2 s.config with ⟨s3, e3, err3⟩
      rw [hsw2] at hsome3 hth3 hcore3
      dsimp only
      refine ⟨?_, ?_, ?_⟩
      · constructor
        · intro h
          exact absurd h (by simp)
        · rintro ⟨t3, ht3⟩
          exact Except.noConfusion ht3
      · intro t3 ht3
        exact Except.noConfusion ht3
      · intro e he
        injection he with h
        subst h
        refine ⟨rfl, by simp, hcore3, ?_, ?_⟩
        · intro t4 ht4
          exact Except.noConfusion ht4
        · intro e2 he2
          exact (hth3.trans hth2).trans hth1

/-- Witness for C5: a new configuration whose sample file is missing
fails to start; the rollback configuration also fails (its sample file is
missing too), so apply_config returns false, emits the triggering error,
keeps the previous configuration recorded and leaves no active source. -/
theorem apply_config_rollback_witness :
    (let envW : Env := ⟨fun _ => false, fun _ => true, fun _ _ => true,
       fun _ => false⟩
     let prevCfg : AppConfig :=
       ⟨⟨"", 115200, "\n", false⟩, some ⟨["old.txt"]⟩, false, none⟩
     let newCfg : AppConfig :=
       ⟨⟨"", 115200, "\n", false⟩, some ⟨["data", "sample.txt"]⟩, false, none⟩
     let sW : AcqState :=
       ⟨prevCfg, DataBus.init, none, "20240101_120000", none, none, none,
        ".tsv", none⟩
     (applyConfig envW sW newCfg).2 = false ∧
     Eff.sig (Signal.errorMsg (.sampleNotFound ⟨["data", "sample.txt"]⟩))
        ∈ (applyConfig envW sW newCfg).1.2 ∧
     (applyConfig envW sW newCfg).1.1.config.core = sW.config.core ∧
     (applyConfig envW sW newCfg).1.1.thread = none) := by
  have h := (apply_config_rollback
    ⟨fun _ => false, fun _ => true, fun _ _ => true, fun _ => false⟩
    ⟨⟨⟨"", 115200, "\n", false⟩, some ⟨["old.txt"]⟩, false, none⟩,
     DataBus.init, none, "20240101_120000", none, none, none, ".tsv", none⟩
    ⟨⟨"", 115200, "\n", false⟩, some ⟨["data", "sample.txt"]⟩, false,
     none⟩).2.2
    (.sampleNotFound ⟨["data", "sample.txt"]⟩) rfl
  exact ⟨h.1, h.2.1, h.2.2.1,
    h.2.2.2.2 (.sampleNotFound ⟨["old.txt"]⟩) rfl⟩

end WTC3
